import Mathlib

/-!
# Verification of the handbrake-daemon transcode orchestration

Shallow embedding of `src/handbrake_daemon/__main__.py`.  External
collaborators (the filesystem, `pymediainfo.MediaInfo.parse`, the
`HandBrakeCLI` subprocess, `wait_until_file_stable`'s clock) are modelled as
explicit oracle parameters; the control flow of every embedded function is
translated line by line from the Python source.

* Python `pathlib.Path` is modelled by `FsPath` as a (stem, suffix) pair, the
  decomposition `pathlib` itself uses: `p.with_suffix(s)` replaces the suffix
  component, `p.name` is the concatenation.  Every path the daemon constructs
  is built by `with_suffix` on a scanned input path or by appending `".tmp"`
  to a name, so this decomposition is faithful for all uses in the source.
* The filesystem is an explicit state `Fs` giving `exists()` / `is_file()`
  answers per path; `unlink`, file creation and `rename` are state updates.
* Python's truthiness is translated explicitly: `if is_h264_encoded(p):`
  is truthy exactly when the tri-state result is `some true`.
* `time.time()` values are modelled as integers (`Int`), one per loop
  iteration of `wait_until_file_stable`; `time.sleep` shows up only through
  the hypothesis that successive sample times advance.  The unbounded
  `while True:` loop is modelled with explicit fuel: a result of `none`
  means the loop has not returned within that many iterations.
-/

set_option autoImplicit false

namespace HandbrakeDaemon

/-! ### Paths -/

/-- A filesystem path, recorded as `pathlib`'s (stem, suffix) decomposition of
its final component.  `name = stem ++ suffix`. -/
structure FsPath where
  stem : String
  suffix : String
deriving DecidableEq, Repr

/-- `Path.name`: the final path component. -/
def FsPath.name (p : FsPath) : String := p.stem ++ p.suffix

/-- `Path.with_suffix(s)`: replace the suffix component. -/
def FsPath.withSuffix (p : FsPath) (s : String) : FsPath := ⟨p.stem, s⟩

/-- `output_file_path.parent / (output_file_path.name + ".tmp")` from
`transcode_video_file`: the whole current name becomes the stem and the
suffix is `".tmp"`, exactly pathlib's decomposition of `video.mp4.tmp`. -/
def FsPath.tmpPath (p : FsPath) : FsPath := ⟨p.name, ".tmp"⟩

/-- `input_file_path.with_suffix(f".\x7bcounter\x7d.mp4")` in the collision
loop of `get_output_file_path_for_mp4`. -/
def mp4Candidate (p : FsPath) (counter : Nat) : FsPath :=
  p.withSuffix ("." ++ toString counter ++ ".mp4")

/-! ### Filesystem state -/

/-- Filesystem state: the answers `Path.exists()` and `Path.is_file()` give
for each path. -/
structure Fs where
  pathExists : FsPath → Bool
  isFile : FsPath → Bool

/-- Creation of a regular file at `p` (the external encoder writing its
temp output). -/
def Fs.createFile (fs : Fs) (p : FsPath) : Fs :=
  ⟨fun q => if q = p then true else fs.pathExists q,
   fun q => if q = p then true else fs.isFile q⟩

/-- `Path.unlink(missing_ok=True)`: removes `p`; a missing path is not an
error (the update is total). -/
def Fs.unlink (fs : Fs) (p : FsPath) : Fs :=
  ⟨fun q => if q = p then false else fs.pathExists q,
   fun q => if q = p then false else fs.isFile q⟩

/-- `a.rename(b)`: the file at `a` moves to `b`. -/
def Fs.rename (fs : Fs) (a b : FsPath) : Fs :=
  ⟨fun q => if q = b then true else if q = a then false else fs.pathExists q,
   fun q => if q = b then fs.isFile a else if q = a then false else fs.isFile q⟩

/-! ### Media probing and the encoding classifier (`is_h264_encoded`) -/

/-- One track of a `MediaInfo.parse` result. -/
structure Track where
  trackType : String
  format : String
deriving DecidableEq, Repr

/-- Oracle for the classifier: `parse n` is the outcome of the `n`-th
`MediaInfo.parse(prepare_input_file(file_path))` call on this file (`none`
models the call raising), and `stabilizes` is the outcome of the
`wait_until_file_stable(file_path)` call the classifier may make. -/
structure ProbeEnv where
  parse : Nat → Option (List Track)
  stabilizes : Bool

/-- `for track in ...tracks: if track.track_type == "Video": return
track.format == "AVC"` — the classification read off the first video track,
or `none` when no video track is found. -/
def findVideo : List Track → Option Bool
  | [] => none
  | t :: ts => if t.trackType = "Video" then some (t.format = "AVC") else findVideo ts

/-- Instrumented result of `is_h264_encoded`: the returned tri-state value,
how many `MediaInfo.parse` calls were made, and whether
`wait_until_file_stable` was invoked. -/
structure ClassifyRes where
  result : Option Bool
  parseCalls : Nat
  stabilityChecked : Bool
deriving DecidableEq, Repr

/-- `is_h264_encoded(file_path, file_stable_flag)`.  `attempt` indexes the
parse oracle so that the retry after stabilization re-probes the file. -/
def is_h264_encoded (env : ProbeEnv) (attempt : Nat) (file_stable_flag : Bool) :
    ClassifyRes :=
  match env.parse attempt with
  | none => ⟨none, 1, false⟩          -- except: print, return None
  | some tracks =>
    match findVideo tracks with
    | some b => ⟨some b, 1, false⟩    -- return track.format == "AVC"
    | none =>
      if file_stable_flag then ⟨none, 1, false⟩
      else if !env.stabilizes then ⟨none, 1, true⟩
      else
        -- return is_h264_encoded(file_path, file_stable_flag=True)
        let r := is_h264_encoded env (attempt + 1) true
        ⟨r.result, 1 + r.parseCalls, true⟩
termination_by (if file_stable_flag then 0 else 1)
decreasing_by simp_all

/-! ### Oracles for the resolver, executor and monitor loop -/

/-- Outcomes of the external calls made by the output-path resolvers,
`transcode_video_file` and the monitor loop body.

* `classify p`: result of the `is_h264_encoded(p)` call (tri-state).
* `stableNow p`: result of the `wait_until_file_stable(p)` call made at the
  top of `transcode_video_file`.
* `duration p`: result of `get_video_duration(p)` (`none` models a probe
  failure or no video track).
* `encoderExit`: exit code of the `HandBrakeCLI` subprocess.
* `encoderEffect`: what the encoder subprocess does to the filesystem while
  it runs (it writes the temp output path). -/
structure Env where
  classify : FsPath → Option Bool
  stableNow : FsPath → Bool
  duration : FsPath → Option Int
  encoderExit : Int
  encoderEffect : Fs → Fs

/-! ### Output path resolution -/

/-- The `for counter in range(1, max_retries + 1)` collision loop of
`get_output_file_path_for_mp4`, with `remaining` candidates left to probe
starting at `counter`.  Python's `new_path.is_file() and
is_h264_encoded(new_path)` is truthy exactly when the path is a regular file
and the classifier returns `some true` (a `None` result is falsy). -/
def mp4CandidateLoop (env : Env) (fs : Fs) (p : FsPath) :
    Nat → Nat → Option FsPath
  | _, 0 => none
  | counter, remaining + 1 =>
    let newPath := mp4Candidate p counter
    -- case 1: candidate path does not exist
    if !fs.pathExists newPath then some newPath
    -- case 2: candidate path is an H264-encoded video file
    else if fs.isFile newPath ∧ env.classify newPath = some true then none
    -- case 3: candidate path exists but is not a file (or is not yet encoded)
    else mp4CandidateLoop env fs p (counter + 1) remaining

/-- `get_output_file_path_for_mp4(input_file_path, max_retries=5)`.  Note the
Python guard `if is_h264_encoded(input_file_path):` is truthy only for
`some true`; both `some false` and `none` fall through to the loop. -/
def get_output_file_path_for_mp4 (env : Env) (fs : Fs) (input_file_path : FsPath)
    (max_retries : Nat := 5) : Option FsPath :=
  if !fs.pathExists input_file_path then none
  else if env.classify input_file_path = some true then none
  else mp4CandidateLoop env fs input_file_path 1 max_retries

/-- `get_output_file_path_for_mkv(input_file_path)`. -/
def get_output_file_path_for_mkv (env : Env) (fs : Fs) (input_file_path : FsPath) :
    Option FsPath :=
  if !fs.pathExists input_file_path then none
  else
    let mp4FilePath := input_file_path.withSuffix ".mp4"
    if !fs.pathExists mp4FilePath then some mp4FilePath
    else get_output_file_path_for_mp4 env fs mp4FilePath

/-- Result of `get_output_file_path`: a resolved optional output path, or the
`ValueError("Unsupported file type: ...")` raise. -/
inductive ResolveResult where
  | ok (out : Option FsPath)
  | unsupportedFileType
deriving DecidableEq, Repr

/-- `str.lower()`: character-wise lowercasing (the unfolding of
`String.toLower`). -/
def lowerString (s : String) : String := ⟨s.data.map Char.toLower⟩

/-- `get_output_file_path(input_file_path)`, matching on
`input_file_path.suffix.lower()`.  The filesystem state is threaded through
to record that resolution performs no mutation: every branch returns `fs`
unchanged (the branches only call `exists`, `is_file` and the prober). -/
def get_output_file_path (env : Env) (fs : Fs) (input_file_path : FsPath) :
    ResolveResult × Fs :=
  match lowerString input_file_path.suffix with
  | ".mp4" => (.ok (get_output_file_path_for_mp4 env fs input_file_path), fs)
  | ".mkv" => (.ok (get_output_file_path_for_mkv env fs input_file_path), fs)
  | _ => (.unsupportedFileType, fs)

/-! ### Stability detection (`wait_until_file_stable`) -/

/-- A `file_path.stat()` sample: size and mtime, or the call raising
(`OSError` / `FileNotFoundError`). -/
inductive StatR where
  | ok (size : Nat) (mtime : Int)
  | err
deriving DecidableEq, Repr

/-- Oracle for one `wait_until_file_stable` run: the initial `is_file()`
answer, the `stat()` sample at each loop iteration (`stat 0` is the sample
taken before the loop), and the `time.time()` clock reading at each
iteration (`times 0` is `start_time = last_change_time`). -/
structure WaitEnv where
  isFile : Bool
  stat : Nat → StatR
  times : Nat → Int

/-- The `while True:` loop of `wait_until_file_stable`, with explicit fuel:
`none` means the loop has not returned within `fuel` iterations.  `lastChange`,
`lastSize`, `lastMtime` carry `last_change_time` and `last_stat`; iteration
`i` reads `stat i` and `times i`. -/
def waitLoop (stat : Nat → StatR) (times : Nat → Int) (dur timeout startTime : Int) :
    Nat → Int → Nat → Int → Nat → Option Bool
  | 0, _, _, _, _ => none
  | fuel + 1, lastChange, lastSize, lastMtime, i =>
    match stat i with
    | .err => some false              -- except OSError: return False
    | .ok size mtime =>
      -- case 1: file is empty
      if size = 0 then some false
      -- case 2: file has changed
      else if size ≠ lastSize ∨ mtime ≠ lastMtime then
        waitLoop stat times dur timeout startTime fuel (times i) size mtime (i + 1)
      -- case 3: file has stabilized
      else if dur ≤ times i - lastChange then some true
      -- case 4: timeout
      else if timeout ≤ times i - startTime then some false
      -- case 5: keep waiting
      else waitLoop stat times dur timeout startTime fuel lastChange lastSize lastMtime (i + 1)

/-- `wait_until_file_stable(file_path, ..., stability_duration_seconds,
timeout_seconds)`.  The pre-loop part: the `is_file()` guard, the initial
`stat()` (a raise is caught and yields `False`), the empty-file fast path;
then the loop starting at iteration 1 with `last_change_time = start_time =
times 0`. -/
def wait_until_file_stable (w : WaitEnv) (dur timeout : Int) (fuel : Nat) :
    Option Bool :=
  if !w.isFile then some false
  else
    match w.stat 0 with
    | .err => some false
    | .ok size mtime =>
      if size = 0 then some false
      else waitLoop w.stat w.times dur timeout (w.times 0) fuel (w.times 0) size mtime 1

/-! ### Transcode executor (`transcode_video_file`) -/

/-- Outcome of `transcode_video_file`: the source returns `False` for the two
skip cases, lets `subprocess.run(..., check=True)` raise
`CalledProcessError` on a non-zero exit, and returns `None` on success. -/
inductive TranscodeOutcome where
  | skippedNotStable
  | skippedTmpExists
  | encoderFailed (code : Int)
  | success
deriving DecidableEq, Repr

/-- Instrumented result of `transcode_video_file`: the outcome, the
filesystem after the call, and whether the encoder subprocess was started. -/
structure TranscodeRes where
  outcome : TranscodeOutcome
  fs : Fs
  encoderInvoked : Bool

/-- `transcode_video_file(input_file_path, output_file_path)`. -/
def transcode_video_file (env : Env) (fs : Fs) (input_file_path output_file_path : FsPath) :
    TranscodeRes :=
  if !env.stableNow input_file_path then ⟨.skippedNotStable, fs, false⟩
  else
    let tempOutputFilePath := output_file_path.tmpPath
    if fs.pathExists tempOutputFilePath then ⟨.skippedTmpExists, fs, false⟩
    else
      -- subprocess.run(command, check=True): the encoder writes the temp path
      let fs1 := env.encoderEffect fs
      if env.encoderExit ≠ 0 then ⟨.encoderFailed env.encoderExit, fs1, true⟩
      else if !fs1.pathExists output_file_path then
        ⟨.success, fs1.rename tempOutputFilePath output_file_path, true⟩
      else ⟨.success, fs1, true⟩

/-! ### Monitor loop body (`monitor_and_transcode`, per task) -/

/-- Instrumented result of one iteration of the task loop in
`monitor_and_transcode`. -/
structure TaskRes where
  fs : Fs
  encoderInvoked : Bool

/-- The body of `for input_file_path, output_file_path in ...:` in
`monitor_and_transcode`: run `transcode_video_file` (its return value is
ignored by the source), then the duration validation with tolerance 500 ms;
`continue` when either duration is unobtainable, and
`output_file_path.unlink(missing_ok=True)` on a mismatch. -/
def processTask (env : Env) (fs : Fs) (input_file_path output_file_path : FsPath) :
    TaskRes :=
  let t := transcode_video_file env fs input_file_path output_file_path
  match env.duration input_file_path with
  | none => ⟨t.fs, t.encoderInvoked⟩
  | some inputDuration =>
    match env.duration output_file_path with
    | none => ⟨t.fs, t.encoderInvoked⟩
    | some outputDuration =>
      if 500 < |inputDuration - outputDuration| then
        ⟨t.fs.unlink output_file_path, t.encoderInvoked⟩
      else ⟨t.fs, t.encoderInvoked⟩

/-! ### Concrete fixtures for witnesses and counterexamples -/

/-- The path `video.mp4`. -/
def videoMp4 : FsPath := ⟨"video", ".mp4"⟩

/-- The path `video.mkv`. -/
def videoMkv : FsPath := ⟨"video", ".mkv"⟩

/-- The path `test.avi` (unsupported extension). -/
def testAvi : FsPath := ⟨"test", ".avi"⟩

/-- A filesystem with no paths at all. -/
def emptyFs : Fs := ⟨fun _ => false, fun _ => false⟩

/-- A filesystem holding exactly the regular file `video.mp4`. -/
def videoFs : Fs :=
  ⟨fun q => decide (q = videoMp4), fun q => decide (q = videoMp4)⟩

/-- A filesystem holding exactly the regular files `video.mp4` and
`video.mkv`. -/
def pairFs : Fs :=
  ⟨fun q => decide (q = videoMp4 ∨ q = videoMkv),
   fun q => decide (q = videoMp4 ∨ q = videoMkv)⟩

/-- A filesystem holding exactly the temp file `video.mp4.tmp`. -/
def tmpFs : Fs :=
  ⟨fun q => decide (q = videoMp4.tmpPath), fun q => decide (q = videoMp4.tmpPath)⟩

/-- Oracles: every classification is `unknown`, every stability check
succeeds, no duration is obtainable, the encoder exits 0 and touches
nothing. -/
def anyEnv : Env := ⟨fun _ => none, fun _ => true, fun _ => none, 0, fun fs => fs⟩

/-- Oracles: like `anyEnv` but every stability check fails. -/
def offEnv : Env := ⟨fun _ => none, fun _ => false, fun _ => none, 0, fun fs => fs⟩

/-- Oracles for the C4 witness: stability holds, exit code 0, and the encoder
subprocess creates the temp output `video.mp4.tmp`. -/
def renameEnv : Env :=
  ⟨fun _ => none, fun _ => true, fun _ => none, 0,
   fun fs => fs.createFile videoMp4.tmpPath⟩

/-- Oracles for the C7 witness: like `renameEnv` but the encoder exits 1. -/
def failEnv : Env :=
  ⟨fun _ => none, fun _ => true, fun _ => none, 1,
   fun fs => fs.createFile videoMp4.tmpPath⟩

/-- Probe oracle for the C2 counterexample: the first `MediaInfo.parse` call
raises, a retry would find an AVC video track, and the file stabilizes. -/
def raiseThenAvcProbe : ProbeEnv :=
  ⟨fun a => if a = 0 then none else some [⟨"Video", "AVC"⟩], true⟩

/-- Probe oracle for the C2 witness: every parse succeeds but yields no
tracks, and the file stabilizes. -/
def noTrackProbe : ProbeEnv := ⟨fun _ => some [], true⟩

/-- Stability oracle for the C5 counterexample: the file exists, is never
empty, and its size changes at every sample; samples are 2 time units
apart. -/
def everChangingWait : WaitEnv :=
  ⟨true, fun i => .ok (i + 1) 0, fun i => 2 * (i : Int)⟩

/-- Stability oracle for the C5 witness: the file exists and its `stat`
never changes; samples are 1 time unit apart. -/
def constantWait : WaitEnv := ⟨true, fun _ => .ok 1 0, fun i => (i : Int)⟩

/-- Filesystem for the C8 concrete scenario: `video.mp4` and the candidates
`video.1.mp4` … `video.4.mp4` exist as regular files; `video.5.mp4` does
not. -/
def collisionFs : Fs :=
  ⟨fun q => decide (q = videoMp4 ∨ q = mp4Candidate videoMp4 1 ∨
      q = mp4Candidate videoMp4 2 ∨ q = mp4Candidate videoMp4 3 ∨
      q = mp4Candidate videoMp4 4),
   fun q => decide (q = videoMp4 ∨ q = mp4Candidate videoMp4 1 ∨
      q = mp4Candidate videoMp4 2 ∨ q = mp4Candidate videoMp4 3 ∨
      q = mp4Candidate videoMp4 4)⟩

/-- Oracles for the C8 concrete scenario: every file classifies as not
H264-encoded (`some false`). -/
def collisionEnv : Env :=
  ⟨fun _ => some false, fun _ => true, fun _ => none, 0, fun fs => fs⟩

/-- Oracles for the C6 accepted scenario: the transcode is skipped
(stability fails), input duration 5000 ms, output duration 5400 ms. -/
def acceptEnv : Env :=
  ⟨fun _ => none, fun _ => false,
   fun p => if p = videoMp4 then some 5400 else some 5000, 0, fun fs => fs⟩

/-- Oracles for the C6 / C10 rejected scenario: the transcode is skipped
(stability fails), input duration 5000 ms, output duration 6000 ms. -/
def rejectEnv : Env :=
  ⟨fun _ => none, fun _ => false,
   fun p => if p = videoMp4 then some 6000 else some 5000, 0, fun fs => fs⟩

/-! ## Claim theorems -/

/-- C3: `transcode_video_file` never starts the encoder subprocess unless
both guards pass: if the input does not re-stabilize the call returns the
skipped result with the filesystem untouched, if the temp output path
`outputPath + ".tmp"` already exists the call returns the skipped result
without overwriting anything, and whenever the encoder was invoked both
guards held; in particular, with `video.mp4.tmp` present, a transcode
targeting `video.mp4` performs no encoder invocation. -/
theorem C3_transcode_guards :
    (∀ (env : Env) (fs : Fs) (i o : FsPath), env.stableNow i = false →
      transcode_video_file env fs i o = ⟨.skippedNotStable, fs, false⟩)
    ∧ (∀ (env : Env) (fs : Fs) (i o : FsPath), env.stableNow i = true →
      fs.pathExists o.tmpPath = true →
      transcode_video_file env fs i o = ⟨.skippedTmpExists, fs, false⟩)
    ∧ (∀ (env : Env) (fs : Fs) (i o : FsPath),
      (transcode_video_file env fs i o).encoderInvoked = true →
      env.stableNow i = true ∧ fs.pathExists o.tmpPath = false)
    ∧ ((transcode_video_file anyEnv tmpFs videoMkv videoMp4).outcome =
        .skippedTmpExists
      ∧ (transcode_video_file anyEnv tmpFs videoMkv videoMp4).encoderInvoked =
        false) := by
  refine ⟨?_, ?_, ?_, by decide, by decide⟩
  · intro env fs i o h
    simp [transcode_video_file, h]
  · intro env fs i o h1 h2
    simp [transcode_video_file, h1, h2]
  · intro env fs i o h
    by_cases h1 : env.stableNow i = true
    · by_cases h2 : fs.pathExists o.tmpPath = true
      · exfalso
        simp [transcode_video_file, h1, h2] at h
      · exact ⟨h1, by simpa using h2⟩
    · exfalso
      have h1f : env.stableNow i = false := by simpa using h1
      simp [transcode_video_file, h1f] at h

/-- C3 witness: with stability failing, a concrete call is skipped with no
encoder start. -/
theorem C3_witness :
    transcode_video_file offEnv emptyFs videoMkv videoMp4 =
      ⟨.skippedNotStable, emptyFs, false⟩ :=
  C3_transcode_guards.1 offEnv emptyFs videoMkv videoMp4 rfl

/-- C4: when the encoder exits 0, the temp file is renamed to the final
output path if that path does not exist at that moment; if it does exist,
the filesystem is left exactly as the encoder left it (the temp file stays,
the existing final file is not overwritten and still exists). -/
theorem C4_success_rename :
    ∀ (env : Env) (fs : Fs) (i o : FsPath),
      env.stableNow i = true → fs.pathExists o.tmpPath = false →
      env.encoderExit = 0 →
      ((env.encoderEffect fs).pathExists o = false →
        transcode_video_file env fs i o =
          ⟨.success, (env.encoderEffect fs).rename o.tmpPath o, true⟩)
      ∧ ((env.encoderEffect fs).pathExists o = true →
        transcode_video_file env fs i o = ⟨.success, env.encoderEffect fs, true⟩
        ∧ (transcode_video_file env fs i o).fs.pathExists o = true) := by
  intro env fs i o h1 h2 h3
  constructor
  · intro h4
    simp [transcode_video_file, h1, h2, h3, h4]
  · intro h4
    constructor
    · simp [transcode_video_file, h1, h2, h3, h4]
    · simp [transcode_video_file, h1, h2, h3, h4]

/-- C4 witness: a concrete successful transcode in which the final path is
free, so the temp file is renamed onto it. -/
theorem C4_witness :
    transcode_video_file renameEnv emptyFs videoMkv videoMp4 =
      ⟨.success, (renameEnv.encoderEffect emptyFs).rename videoMp4.tmpPath videoMp4,
        true⟩ :=
  (C4_success_rename renameEnv emptyFs videoMkv videoMp4 rfl rfl rfl).1 (by decide)

/-- C7: a non-zero encoder exit is propagated as the encoder failure, and
the function does no cleanup: the filesystem is exactly what the encoder
subprocess left behind, so a temp output the encoder wrote is still
there. -/
theorem C7_encoder_failure_propagates :
    ∀ (env : Env) (fs : Fs) (i o : FsPath),
      env.stableNow i = true → fs.pathExists o.tmpPath = false →
      env.encoderExit ≠ 0 →
      transcode_video_file env fs i o =
        ⟨.encoderFailed env.encoderExit, env.encoderEffect fs, true⟩
      ∧ ((env.encoderEffect fs).pathExists o.tmpPath = true →
        (transcode_video_file env fs i o).fs.pathExists o.tmpPath = true) := by
  intro env fs i o h1 h2 h3
  constructor
  · simp [transcode_video_file, h1, h2, h3]
  · intro h4
    simp [transcode_video_file, h1, h2, h3, h4]

/-- C7 witness: a concrete failed transcode (exit code 1) propagates the
failure and leaves the temp file the encoder wrote in place. -/
theorem C7_witness :
    transcode_video_file failEnv emptyFs videoMkv videoMp4 =
      ⟨.encoderFailed failEnv.encoderExit, failEnv.encoderEffect emptyFs, true⟩
    ∧ (transcode_video_file failEnv emptyFs videoMkv videoMp4).fs.pathExists
        videoMp4.tmpPath = true := by
  have h := C7_encoder_failure_propagates failEnv emptyFs videoMkv videoMp4 rfl rfl
    (by decide)
  exact ⟨h.1, h.2 (by decide)⟩

/-- Removing one path leaves every other path's existence unchanged. -/
theorem Fs.pathExists_unlink_ne (fs : Fs) (p q : FsPath) (h : q ≠ p) :
    (fs.unlink p).pathExists q = fs.pathExists q := by
  simp [Fs.unlink, h]

/-- C6: duration validation in the loop body: if either duration is
unobtainable, validation is skipped and the filesystem is whatever the
transcode left (nothing deleted); if both are obtainable and differ by more
than 500 ms the output is unlinked and the input path untouched; if they
differ by at most 500 ms nothing is deleted; concretely 5000 ms vs 5400 ms
is accepted while 5000 ms vs 6000 ms has the output removed. -/
theorem C6_duration_validation :
    (∀ (env : Env) (fs : Fs) (i o : FsPath), env.duration i = none →
      processTask env fs i o =
        ⟨(transcode_video_file env fs i o).fs,
         (transcode_video_file env fs i o).encoderInvoked⟩)
    ∧ (∀ (env : Env) (fs : Fs) (i o : FsPath) (d1 : Int),
      env.duration i = some d1 → env.duration o = none →
      processTask env fs i o =
        ⟨(transcode_video_file env fs i o).fs,
         (transcode_video_file env fs i o).encoderInvoked⟩)
    ∧ (∀ (env : Env) (fs : Fs) (i o : FsPath) (d1 d2 : Int),
      env.duration i = some d1 → env.duration o = some d2 →
      500 < |d1 - d2| →
      (processTask env fs i o).fs = (transcode_video_file env fs i o).fs.unlink o
      ∧ (i ≠ o → (processTask env fs i o).fs.pathExists i =
          (transcode_video_file env fs i o).fs.pathExists i))
    ∧ (∀ (env : Env) (fs : Fs) (i o : FsPath) (d1 d2 : Int),
      env.duration i = some d1 → env.duration o = some d2 →
      |d1 - d2| ≤ 500 →
      (processTask env fs i o).fs = (transcode_video_file env fs i o).fs)
    ∧ ((processTask acceptEnv pairFs videoMkv videoMp4).fs.pathExists videoMp4 =
        true
      ∧ (processTask rejectEnv pairFs videoMkv videoMp4).fs.pathExists videoMp4 =
        false
      ∧ (processTask rejectEnv pairFs videoMkv videoMp4).fs.pathExists videoMkv =
        true) := by
  refine ⟨?_, ?_, ?_, ?_, by decide, by decide, by decide⟩
  · intro env fs i o h
    simp [processTask, h]
  · intro env fs i o d1 h1 h2
    simp [processTask, h1, h2]
  · intro env fs i o d1 d2 h1 h2 h3
    constructor
    · simp [processTask, h1, h2, h3]
    · intro hne
      simp [processTask, h1, h2, h3]
      exact Fs.pathExists_unlink_ne _ _ _ hne
  · intro env fs i o d1 d2 h1 h2 h3
    simp [processTask, h1, h2, not_lt.mpr h3]

/-- C6 witness: with unobtainable input duration, a concrete loop-body run
deletes nothing beyond what the transcode did. -/
theorem C6_witness :
    processTask anyEnv videoFs videoMkv videoMp4 =
      ⟨(transcode_video_file anyEnv videoFs videoMkv videoMp4).fs,
       (transcode_video_file anyEnv videoFs videoMkv videoMp4).encoderInvoked⟩ :=
  C6_duration_validation.1 anyEnv videoFs videoMkv videoMp4 rfl

/-- C10: the loop body runs duration validation even when the transcode was
skipped (input not stable, or temp output present): with both durations
obtainable and differing by more than 500 ms, a pre-existing output file is
deleted in a cycle in which no encoder ran. -/
theorem C10_validation_after_skip :
    ∀ (env : Env) (fs : Fs) (i o : FsPath) (d1 d2 : Int),
      (env.stableNow i = false ∨ fs.pathExists o.tmpPath = true) →
      env.duration i = some d1 → env.duration o = some d2 →
      500 < |d1 - d2| → fs.pathExists o = true →
      (processTask env fs i o).encoderInvoked = false
      ∧ (processTask env fs i o).fs.pathExists o = false := by
  intro env fs i o d1 d2 hskip h1 h2 h3 _
  have htr : (transcode_video_file env fs i o).fs = fs
      ∧ (transcode_video_file env fs i o).encoderInvoked = false := by
    rcases hskip with h | h
    · simp [transcode_video_file, h]
    · by_cases hs : env.stableNow i = true
      · simp [transcode_video_file, hs, h]
      · have hsf : env.stableNow i = false := by simpa using hs
        simp [transcode_video_file, hsf]
  constructor
  · simp [processTask, h1, h2, h3, htr.2]
  · simp [processTask, h1, h2, h3, Fs.unlink]

/-- C10 witness: a concrete cycle in which stability fails (so the encoder
never runs) still deletes the pre-existing mismatching output. -/
theorem C10_witness :
    (processTask rejectEnv pairFs videoMkv videoMp4).encoderInvoked = false
    ∧ (processTask rejectEnv pairFs videoMkv videoMp4).fs.pathExists videoMp4 =
      false :=
  C10_validation_after_skip rejectEnv pairFs videoMkv videoMp4 5000 6000
    (Or.inl rfl) (by decide) (by decide) (by decide) (by decide)

/-- C8: the collision loop probes candidates `input.1.mp4, input.2.mp4, …`
up to the retry bound: a nonexistent candidate is returned at once; an
existing regular-file candidate that is itself H264-encoded makes resolution
return `none`; any other existing candidate advances the counter; an
exhausted bound yields `none`; and in the concrete scenario — `video.mp4`
not H264-encoded, `video.1.mp4` … `video.4.mp4` existing as non-qualifying
files — resolution yields `video.5.mp4`. -/
theorem C8_collision_avoidance :
    (∀ (env : Env) (fs : Fs) (p : FsPath) (c r : Nat),
      fs.pathExists (mp4Candidate p c) = false →
      mp4CandidateLoop env fs p c (r + 1) = some (mp4Candidate p c))
    ∧ (∀ (env : Env) (fs : Fs) (p : FsPath) (c r : Nat),
      fs.pathExists (mp4Candidate p c) = true →
      fs.isFile (mp4Candidate p c) = true →
      env.classify (mp4Candidate p c) = some true →
      mp4CandidateLoop env fs p c (r + 1) = none)
    ∧ (∀ (env : Env) (fs : Fs) (p : FsPath) (c r : Nat),
      fs.pathExists (mp4Candidate p c) = true →
      ¬(fs.isFile (mp4Candidate p c) = true
        ∧ env.classify (mp4Candidate p c) = some true) →
      mp4CandidateLoop env fs p c (r + 1) = mp4CandidateLoop env fs p (c + 1) r)
    ∧ (∀ (env : Env) (fs : Fs) (p : FsPath) (c : Nat),
      mp4CandidateLoop env fs p c 0 = none)
    ∧ get_output_file_path_for_mp4 collisionEnv collisionFs videoMp4 5 =
        some ⟨"video", ".5.mp4"⟩ := by
  refine ⟨?_, ?_, ?_, ?_, by decide⟩
  · intro env fs p c r h
    simp [mp4CandidateLoop, h]
  · intro env fs p c r h1 h2 h3
    simp [mp4CandidateLoop, h1, h2, h3]
  · intro env fs p c r h1 h2
    simp only [mp4CandidateLoop, h1, Bool.not_true, Bool.false_eq_true,
      if_false]
    rw [if_neg h2]
  · intro env fs p c
    rfl

/-- C8 witness: a concrete loop step returns the first nonexistent
candidate. -/
theorem C8_witness :
    mp4CandidateLoop anyEnv emptyFs videoMp4 1 5 = some (mp4Candidate videoMp4 1) :=
  C8_collision_avoidance.1 anyEnv emptyFs videoMp4 1 4 rfl

/-- C9: for any input path whose lowercased extension is neither `.mp4` nor
`.mkv`, `get_output_file_path` raises the unsupported-file-type `ValueError`
and returns the filesystem unchanged (no mutation). -/
theorem C9_unsupported_extension :
    ∀ (env : Env) (fs : Fs) (p : FsPath),
      lowerString p.suffix ≠ ".mp4" → lowerString p.suffix ≠ ".mkv" →
      get_output_file_path env fs p = (.unsupportedFileType, fs) := by
  intro env fs p h1 h2
  rw [get_output_file_path.eq_def]
  split
  · next h => exact absurd h h1
  · next h => exact absurd h h2
  · rfl

/-- C9 witness: resolution of `test.avi` raises the unsupported-file-type
error and leaves the filesystem unchanged. -/
theorem C9_witness :
    get_output_file_path anyEnv emptyFs testAvi = (.unsupportedFileType, emptyFs) :=
  C9_unsupported_extension anyEnv emptyFs testAvi (by decide) (by decide)

/-- C1 counterexample: an existing MP4 input whose classification is unknown
(`none`) does not make `get_output_file_path_for_mp4` return `none`: the
truthiness test `if is_h264_encoded(input_file_path):` treats `None` as
false, so resolution proceeds to the collision candidates and here yields
`video.1.mp4`. -/
theorem C1_counterexample :
    videoFs.pathExists videoMp4 = true
    ∧ anyEnv.classify videoMp4 = none
    ∧ get_output_file_path_for_mp4 anyEnv videoFs videoMp4 5 =
        some ⟨"video", ".1.mp4"⟩ := by
  refine ⟨by decide, rfl, by decide⟩

/-- C1 amended: for an existing MP4 input whose classification is unknown,
resolution treats unknown exactly like not-encoded — it proceeds to the
collision-candidate loop (it does not defer with `none`); `None` is coerced
to false by the caller's truthiness check. -/
theorem C1_unknown_coerced_to_false :
    ∀ (env : Env) (fs : Fs) (p : FsPath) (n : Nat),
      fs.pathExists p = true → env.classify p = none →
      get_output_file_path_for_mp4 env fs p n = mp4CandidateLoop env fs p 1 n := by
  intro env fs p n h1 h2
  simp [get_output_file_path_for_mp4, h1, h2]

/-- C1 witness: a concrete unknown-classified existing input resolves via
the collision loop. -/
theorem C1_witness :
    get_output_file_path_for_mp4 anyEnv videoFs videoMp4 5 =
      mp4CandidateLoop anyEnv videoFs videoMp4 1 5 :=
  C1_unknown_coerced_to_false anyEnv videoFs videoMp4 5 (by decide) rfl

/-- C2 counterexample: when `MediaInfo.parse` raises (unreadable container),
`is_h264_encoded` returns `None` at once — it does not invoke the stability
detector and does not retry — even though the file would stabilize and a
retry would have classified the file as AVC. -/
theorem C2_counterexample :
    is_h264_encoded raiseThenAvcProbe 0 false = ⟨none, 1, false⟩
    ∧ raiseThenAvcProbe.parse 0 = none
    ∧ raiseThenAvcProbe.stabilizes = true
    ∧ (is_h264_encoded raiseThenAvcProbe 1 true).result = some true := by
  refine ⟨?_, rfl, rfl, ?_⟩
  · rw [is_h264_encoded]
    simp [raiseThenAvcProbe]
  · rw [is_h264_encoded]
    simp [raiseThenAvcProbe, findVideo]

/-- C2 amended: the stability-and-retry path is taken only when the probe
succeeds but finds no video track: then, with stability not yet confirmed,
the stability detector is invoked and, if the file stabilizes, the probe is
retried exactly once with the stable flag set (the retried call makes
exactly one parse call and never recurses), returning unknown if the retry
still cannot classify; whereas a probe exception returns unknown
immediately, with no stability check and no retry, and so does a
no-video-track probe when stability was already confirmed or the file fails
to stabilize. -/
theorem C2_retry_only_after_no_video_track :
    (∀ (env : ProbeEnv) (a : Nat), env.parse a = none →
      is_h264_encoded env a false = ⟨none, 1, false⟩)
    ∧ (∀ (env : ProbeEnv) (a : Nat) (tracks : List Track),
      env.parse a = some tracks → findVideo tracks = none →
      env.stabilizes = true →
      is_h264_encoded env a false =
        ⟨(is_h264_encoded env (a + 1) true).result,
         1 + (is_h264_encoded env (a + 1) true).parseCalls, true⟩)
    ∧ (∀ (env : ProbeEnv) (a : Nat), (is_h264_encoded env a true).parseCalls = 1
      ∧ (is_h264_encoded env a true).stabilityChecked = false)
    ∧ (∀ (env : ProbeEnv) (a : Nat) (tracks : List Track),
      env.parse a = some tracks → findVideo tracks = none →
      env.stabilizes = false →
      is_h264_encoded env a false = ⟨none, 1, true⟩)
    ∧ (∀ (env : ProbeEnv) (a : Nat) (tracks : List Track),
      env.parse a = some tracks → findVideo tracks = none →
      is_h264_encoded env a true = ⟨none, 1, false⟩) := by
  refine ⟨?_, ?_, ?_, ?_, ?_⟩
  · intro env a h
    rw [is_h264_encoded]
    simp [h]
  · intro env a tracks h1 h2 h3
    rw [is_h264_encoded]
    simp [h1, h2, h3]
  · intro env a
    rw [is_h264_encoded]
    cases h : env.parse a with
    | none => simp
    | some tracks =>
      cases h2 : findVideo tracks with
      | none => simp [h2]
      | some b => simp [h2]
  · intro env a tracks h1 h2 h3
    rw [is_h264_encoded]
    simp [h1, h2, h3]
  · intro env a tracks h1 h2
    rw [is_h264_encoded]
    simp [h1, h2]

/-- C2 witness: a concrete probe that finds no video track, with the file
stabilizing, retries once with the stable flag set. -/
theorem C2_witness :
    is_h264_encoded noTrackProbe 0 false =
      ⟨(is_h264_encoded noTrackProbe 1 true).result,
       1 + (is_h264_encoded noTrackProbe 1 true).parseCalls, true⟩ :=
  C2_retry_only_after_no_video_track.2.1 noTrackProbe 0 [] rfl rfl rfl

/-- For a file whose `stat` never changes, the loop returns `some true` at
the first sample at which the stability duration has elapsed. -/
theorem waitLoop_const_true (stat : Nat → StatR) (times : Nat → Int)
    (d t t0 : Int) (s : Nat) (m : Int) (N : Nat)
    (hstat : ∀ j, stat j = .ok s m) (hs : s ≠ 0)
    (hbound : ∀ j, 1 ≤ j → j < N → times j - t0 < d ∧ times j - t0 < t)
    (hN : d ≤ times N - t0) :
    ∀ (fuel i : Nat), 1 ≤ i → i ≤ N → N - i < fuel →
      waitLoop stat times d t t0 fuel t0 s m i = some true := by
  intro fuel
  induction fuel with
  | zero => intro i h1 h2 h3; omega
  | succ fuel ih =>
    intro i h1 h2 h3
    rw [waitLoop, hstat i]
    dsimp only
    by_cases hiN : i = N
    · subst hiN
      rw [if_neg hs, if_neg (by simp), if_pos hN]
    · have hlt : i < N := lt_of_le_of_ne h2 hiN
      have hb := hbound i h1 hlt
      rw [if_neg hs, if_neg (by simp), if_neg (not_le.mpr hb.1),
        if_neg (not_le.mpr hb.2)]
      exact ih (i + 1) (by omega) (by omega) (by omega)

/-- For a file whose `stat` never changes, the loop is still undecided while
neither the stability duration nor the timeout has elapsed. -/
theorem waitLoop_const_none (stat : Nat → StatR) (times : Nat → Int)
    (d t t0 : Int) (s : Nat) (m : Int) (N : Nat)
    (hstat : ∀ j, stat j = .ok s m) (hs : s ≠ 0)
    (hbound : ∀ j, 1 ≤ j → j < N → times j - t0 < d ∧ times j - t0 < t) :
    ∀ (fuel i : Nat), 1 ≤ i → i + fuel ≤ N →
      waitLoop stat times d t t0 fuel t0 s m i = none := by
  intro fuel
  induction fuel with
  | zero => intro i h1 h2; rfl
  | succ fuel ih =>
    intro i h1 h2
    have hb := hbound i h1 (by omega)
    rw [waitLoop, hstat i]
    dsimp only
    rw [if_neg hs, if_neg (by simp), if_neg (not_le.mpr hb.1),
      if_neg (not_le.mpr hb.2)]
    exact ih (i + 1) (by omega) (by omega)

/-- C5 counterexample: the claim that `wait_until_file_stable` returns false
once total elapsed time exceeds the timeout is false: for a file whose size
changes at every sample, the timeout check (case 4) is never reached — with
stability duration 5 and timeout 60, the run is still undecided after 50
loop iterations even though the elapsed time at sample 31 already reached
the timeout. -/
theorem C5_counterexample :
    wait_until_file_stable everChangingWait 5 60 50 = none
    ∧ (60 : Int) ≤ everChangingWait.times 31 - everChangingWait.times 0 := by
  constructor
  · decide
  · decide

/-- C5 amended: `wait_until_file_stable` returns false with no loop
iteration when the path is not a regular file, when the initial sample shows
size zero, or when the initial `stat` raises; a `stat` error at any reached
loop sample returns false; for an unchanged nonzero file it returns true at
the first sample at which the stability duration has elapsed and is still
undecided before that; and the timeout returns false only when an unchanged
sample is observed after the timeout has elapsed and before stability is
reached (a file that changes at every sample is monitored indefinitely). -/
theorem C5_stability_detection :
    (∀ (w : WaitEnv) (d t : Int), w.isFile = false →
      wait_until_file_stable w d t 0 = some false)
    ∧ (∀ (w : WaitEnv) (d t m : Int), w.isFile = true → w.stat 0 = .ok 0 m →
      wait_until_file_stable w d t 0 = some false)
    ∧ (∀ (w : WaitEnv) (d t : Int), w.isFile = true → w.stat 0 = .err →
      wait_until_file_stable w d t 0 = some false)
    ∧ (∀ (stat : Nat → StatR) (times : Nat → Int) (d t st lc : Int)
        (ls : Nat) (lm : Int) (fuel i : Nat), stat i = .err →
      waitLoop stat times d t st (fuel + 1) lc ls lm i = some false)
    ∧ (∀ (w : WaitEnv) (d t : Int) (s : Nat) (m : Int) (N fuel : Nat),
      w.isFile = true → (∀ j, w.stat j = .ok s m) → s ≠ 0 → 1 ≤ N →
      (∀ j, 1 ≤ j → j < N →
        w.times j - w.times 0 < d ∧ w.times j - w.times 0 < t) →
      d ≤ w.times N - w.times 0 → N ≤ fuel →
      wait_until_file_stable w d t fuel = some true)
    ∧ (∀ (w : WaitEnv) (d t : Int) (s : Nat) (m : Int) (N fuel : Nat),
      w.isFile = true → (∀ j, w.stat j = .ok s m) → s ≠ 0 →
      (∀ j, 1 ≤ j → j < N →
        w.times j - w.times 0 < d ∧ w.times j - w.times 0 < t) →
      fuel + 1 ≤ N →
      wait_until_file_stable w d t fuel = none)
    ∧ (∀ (stat : Nat → StatR) (times : Nat → Int) (d t st lc : Int)
        (ls : Nat) (lm : Int) (fuel i : Nat),
      stat i = .ok ls lm → ls ≠ 0 → times i - lc < d → t ≤ times i - st →
      waitLoop stat times d t st (fuel + 1) lc ls lm i = some false) := by
  refine ⟨?_, ?_, ?_, ?_, ?_, ?_, ?_⟩
  · intro w d t h
    simp [wait_until_file_stable, h]
  · intro w d t m h1 h2
    simp [wait_until_file_stable, h1, h2]
  · intro w d t h1 h2
    simp [wait_until_file_stable, h1, h2]
  · intro stat times d t st lc ls lm fuel i h
    rw [waitLoop, h]
  · intro w d t s m N fuel h1 h2 hs hN hbound hstab hfuel
    rw [wait_until_file_stable]
    rw [h1, h2 0]
    dsimp only
    rw [if_neg hs]
    simpa using waitLoop_const_true w.stat w.times d t (w.times 0) s m N h2 hs
      hbound hstab fuel 1 le_rfl hN (by omega)
  · intro w d t s m N fuel h1 h2 hs hbound hfuel
    rw [wait_until_file_stable]
    rw [h1, h2 0]
    dsimp only
    rw [if_neg hs]
    simpa using waitLoop_const_none w.stat w.times d t (w.times 0) s m N h2 hs
      hbound fuel 1 le_rfl (by omega)
  · intro stat times d t st lc ls lm fuel i h1 h2 h3 h4
    rw [waitLoop, h1]
    dsimp only
    rw [if_neg h2, if_neg (by simp), if_neg (not_le.mpr h3), if_pos h4]

/-- C5 witness: a file whose `stat` never changes, sampled once per time
unit with stability duration 5 and timeout 60, is reported stable with fuel
10 (it stabilizes at sample 5). -/
theorem C5_witness :
    wait_until_file_stable constantWait 5 60 10 = some true :=
  C5_stability_detection.2.2.2.2.1 constantWait 5 60 1 0 5 10 rfl (fun _ => rfl)
    (by decide) (by decide)
    (fun j hj1 hj2 => by
      constructor <;> (simp only [constantWait]; omega))
    (by decide) (by decide)

end HandbrakeDaemon
